import Mathlib

/-!
Shallow embedding of the UTown FBS booking automator
(`src/services/FBSInteractorService.ts`, class `FBSInteractor`).

The pure validation prologue of `bookSlot` (lines 66-98 of the source) is
embedded as `parseAndValidate`.  The browser-driven part is embedded as a
function over a `PortalEnv` oracle describing what the portal pages expose
(element presence, checkbox states, error-message text, the booking-reference
cell), producing an `Except BookingError String` result together with a
`Trace` of the observable actions performed (values selected in the form,
checkbox clicks, screenshots taken, browser lifecycle).
-/

namespace FBS

/-- JavaScript truthiness of a string: falsy exactly when empty. -/
def truthyStr (s : String) : Bool := s != ""

/-- JavaScript truthiness of a possibly-undefined string. -/
def truthyOpt : Option String → Bool
  | none => false
  | some s => truthyStr s

/-- `l` starts with `pat` (helper for the substring test). -/
def charsStartsWith : List Char → List Char → Bool
  | _, [] => true
  | [], _ :: _ => false
  | a :: s, b :: p => a == b && charsStartsWith s p

/-- `pat` occurs somewhere in `l` (helper for the substring test). -/
def charsIncludes : List Char → List Char → Bool
  | [], pat => pat.isEmpty
  | a :: s, pat => charsStartsWith (a :: s) pat || charsIncludes s pat

/-- `String.prototype.includes`: substring containment test. -/
def strIncludes (s pat : String) : Bool := charsIncludes s.data pat.data

/-- `String.prototype.split(sep)` for a single-character separator,
as used in `startTime.split(" ")` and `date.split("-")`. -/
def jsSplitAux (sep : Char) : List Char → List Char → List String
  | [], acc => [String.mk acc.reverse]
  | c :: rest, acc =>
    if c == sep then String.mk acc.reverse :: jsSplitAux sep rest []
    else jsSplitAux sep rest (c :: acc)

def jsSplit (s : String) (sep : Char) : List String := jsSplitAux sep s.data []

/-- whitespace recognised by the model of `String.prototype.trim`. -/
def isJsSpace (c : Char) : Bool := c == ' ' || c == '\t' || c == '\n' || c == '\r'

/-- `String.prototype.trim`. -/
def jsTrim (s : String) : String :=
  String.mk (((s.data.dropWhile isJsSpace).reverse.dropWhile isJsSpace).reverse)

/-- `s.replace(/^0+/, '')`: strip the maximal run of leading zeros. -/
def stripLeadingZeros (s : String) : String :=
  String.mk (s.data.dropWhile (· == '0'))

/-- `s.padStart(2, '0')`: left-pad to (at least) two characters with zeros. -/
def padStart2 (s : String) : String :=
  if 2 ≤ s.length then s else String.mk (List.replicate (2 - s.length) '0' ++ s.data)

/-- Numeric value of a digit character. -/
def digitVal (c : Char) : Nat := c.toNat - '0'.toNat

/-- Numeric value of a decimal digit string. -/
def digitsValue (s : String) : Nat :=
  s.data.foldl (fun acc c => 10 * acc + digitVal c) 0

/-- One entry of the static `FBSInteractor.VENUES` table. -/
structure Venue where
  id : Int
  name : String
  desc : String
  facil_type_value : String
  option_value : String
  deriving DecidableEq, Repr

/-- `FBSInteractor.VENUES` (source lines 17-29). -/
def VENUES : List Venue := [
  ⟨1, "SR1", "Seminar Room 1", "b0b1df78-0e74-4b3c-8033-ced5e3e32413", "4ada4203-06ab-48ac-8a14-1bb8c26474e2"⟩,
  ⟨2, "SR2", "Seminar Room 2", "b0b1df78-0e74-4b3c-8033-ced5e3e32413", "c353d4b6-dff1-4006-a4db-d7fa49659ffc"⟩,
  ⟨3, "SR3", "Seminar Room 3", "b0b1df78-0e74-4b3c-8033-ced5e3e32413", "c9c6f9d5-9b42-4978-aed1-a1b86af20365"⟩,
  ⟨4, "SR4", "Seminar Room 4", "b0b1df78-0e74-4b3c-8033-ced5e3e32413", "e0568195-98af-403c-b3cf-0350e443e403"⟩,
  ⟨5, "SR5", "Seminar Room 5", "b0b1df78-0e74-4b3c-8033-ced5e3e32413", "8f070a07-7ab2-4194-b841-f53304e7f2a6"⟩,
  ⟨6, "TR1", "Theme Room 1", "b0b1df78-0e74-4b3c-8033-ced5e3e32413", "c27c5808-e80d-4f1c-9982-aca83c359001"⟩,
  ⟨7, "TR2", "Theme Room 2", "b0b1df78-0e74-4b3c-8033-ced5e3e32413", "3fa27ba4-9a0b-41f3-9282-15f78943994b"⟩,
  ⟨8, "TR3", "Theme Room 3", "b0b1df78-0e74-4b3c-8033-ced5e3e32413", "635ed65a-1db0-4201-a40c-77df9ff8e7d8"⟩,
  ⟨9, "TR4", "Theme Room 4", "b0b1df78-0e74-4b3c-8033-ced5e3e32413", "8839f7ab-1a73-4190-b4aa-84e1e6524187"⟩,
  ⟨10, "Gym", "Gym", "b0b1df78-0e74-4b3c-8033-ced5e3e32413", "32ecb2ef-0600-44b9-97b0-dbf2a1c2bfab"⟩,
  ⟨11, "MPSH", "Multi-purpose sports hall", "775b9829-d80e-4191-bebb-a9219b9c3d10", "c79604f1-8481-4ca1-be2a-17e273348b21"⟩]

/-- `FBSInteractor.USAGE_TYPES` (source lines 31-36), as a key lookup:
`USAGE_TYPES[usageType]` yields the token, or `undefined` for other keys. -/
def USAGE_TYPES (key : String) : Option String :=
  if key == "Academic" then some "b6ac372c-eb4b-497a-9825-3501b17265b2"
  else if key == "Maintenance" then some "3d1cd98b-b664-49b0-b063-179cf3009a90"
  else if key == "Meeting" then some "6802dca4-6858-4085-ab02-1bedb0e9a6b2"
  else if key == "Student Activities" then some "d946c992-97e3-4a44-bb11-07ad0440563d"
  else none

/-- JavaScript array indexing with a possibly-negative index:
`VENUES[locationID - 1]` is `undefined` for indices outside the array. -/
def jsIndex (xs : List Venue) (i : Int) : Option Venue :=
  if i < 0 then none else xs.get? i.toNat

/-- The typed failures an attempt can raise (source lines 346-365 plus the
plain `Error` throws, puppeteer timeouts and launch failures). -/
inductive BookingError where
  | expectedElementNotFound (message : String)
  | invalidBookingTimeException (message : String)
  | slotTakenException (message : String)
  | jsError (message : String)
  | timeoutError (what : String)
  | launchError
  deriving DecidableEq, Repr

/-- Everything `bookSlot` computes before touching the browser
(source lines 66-98). -/
structure Parsed where
  date : String
  time : String
  time_end : String
  year : String
  month : String
  day : String
  start_time_form_value : String
  end_time_form_value : String
  month_parsed : String
  day_parsed : String
  venue : Venue
  usageTypeString : String
  deriving DecidableEq, Repr

/-- The validation prologue of `bookSlot` (source lines 66-98), in source
order: split start/end into date and time-of-day, check truthiness; split the
date on dashes, check truthiness of year/month/day; build the sentinel-dated
form values; check `usageType` truthiness; strip leading zeros from month and
day; look up the venue; look up the usage-type token. -/
def parseAndValidate (startTime endTime usageType : String) (locationID : Int) :
    Except BookingError Parsed :=
  let sParts := jsSplit startTime ' '
  let eParts := jsSplit endTime ' '
  let dateOpt := sParts.get? 0
  let timeOpt := sParts.get? 1
  let timeEndOpt := eParts.get? 1
  if !truthyOpt dateOpt || !truthyOpt timeOpt || !truthyOpt timeEndOpt then
    .error (.jsError "Invalid date/time format for startTime or endTime.")
  else
    let dateStr := dateOpt.getD ""
    let timeStr := timeOpt.getD ""
    let timeEndStr := timeEndOpt.getD ""
    let dParts := jsSplit dateStr '-'
    let yearOpt := dParts.get? 0
    let monthOpt := dParts.get? 1
    let dayOpt := dParts.get? 2
    if !truthyOpt yearOpt || !truthyOpt monthOpt || !truthyOpt dayOpt then
      .error (.jsError "Invalid date format. Expected YYYY-MM-DD.")
    else
      let yearStr := yearOpt.getD ""
      let monthStr := monthOpt.getD ""
      let dayStr := dayOpt.getD ""
      let start_time_form_value := "1800/01/01" ++ " " ++ timeStr
      let end_time_form_value := "1800/01/01" ++ " " ++ timeEndStr
      if !truthyStr usageType then
        .error (.jsError "Usage Type is not provided")
      else
        let month_parsed := stripLeadingZeros monthStr
        let day_parsed := stripLeadingZeros dayStr
        match jsIndex VENUES (locationID - 1) with
        | none => .error (.jsError "Venue not found for provided locationID.")
        | some venue =>
          match USAGE_TYPES usageType with
          | none => .error (.jsError "Invalid usageType provided.")
          | some usageTypeString =>
            .ok ⟨dateStr, timeStr, timeEndStr, yearStr, monthStr, dayStr,
                 start_time_form_value, end_time_form_value,
                 month_parsed, day_parsed, venue, usageTypeString⟩

/-- Oracle describing what the portal exposes to one run of `bookSlot`:
whether each awaited/queried element or frame is there, the initial state of
the two checkboxes, the error-message element after submission, and the
booking-reference cell. -/
structure PortalEnv where
  launchOk : Bool
  gotoLoginOk : Bool
  studentLoginButtonVisible : Bool
  userNameInputVisible : Bool
  searchFrameFound : Bool
  facilTypeSelectFound : Bool
  facilitySelectFound : Bool
  startDateTableFound : Bool
  startDateInputFound : Bool
  calendarDivVisibleStart : Bool
  calendarFrameStartFound : Bool
  monthYearSelectsStartFound : Bool
  day7VisibleStart : Bool
  endDateInputFound : Bool
  calendarDivVisibleEnd : Bool
  calendarFrameEndFound : Bool
  monthYearSelectsEndFound : Bool
  day7VisibleEnd : Bool
  viewAvailabilityBtnFound : Bool
  bookingCalFrameFound : Bool
  slotDivVisible : Bool
  createWindowVisible : Bool
  iframeBookingElementFound : Bool
  bookingFrameAccessible : Bool
  bookingFrameNavOk : Bool
  usageTypeSelectFound : Bool
  timeSelectsFound : Bool
  attendeesInputFound : Bool
  chargeGroupSelectFound : Bool
  purposeTextareaFound : Bool
  doorAccessCheckboxFound : Bool
  doorAccessChecked : Bool
  airconCheckboxFound : Bool
  airconChecked : Bool
  createBookingBtnFound : Bool
  errorMsgElementPresent : Bool
  errorMsgText : Option String
  refTableAppears : Bool
  refCellText : Option String
  timestamp : Nat
  deriving DecidableEq, Repr

/-- Observable actions one run of `bookSlot` performed: browser lifecycle,
the values driven into the portal form, checkbox clicks, screenshots. -/
structure Trace where
  browserLaunched : Bool
  browserClosed : Bool
  selectedFacilityType : Option String
  selectedFacility : Option String
  selectedMonthStart : Option String
  selectedYearStart : Option String
  clickedDayStart : Option String
  selectedMonthEnd : Option String
  selectedYearEnd : Option String
  clickedDayEnd : Option String
  slotSelectorClicked : Option String
  selectedUsageType : Option String
  selectedFromValue : Option String
  selectedToValue : Option String
  typedAttendees : Option String
  selectedChargeGroup : Option String
  typedPurpose : Option String
  doorAccessClicks : Nat
  doorAccessFinal : Option Bool
  airconClicks : Nat
  airconFinal : Option Bool
  screenshots : List String
  deriving DecidableEq, Repr

/-- The empty trace: nothing happened yet. -/
def Trace.empty : Trace :=
  ⟨false, false, none, none, none, none, none, none, none, none, none,
   none, none, none, none, none, none, 0, none, 0, none, []⟩

/-- The submission evaluator (source lines 287-332): click create-booking,
probe the error-message element, classify its text by substring, otherwise
read the booking reference from the second cell of the results table and
screenshot the page. -/
def submissionStage (env : PortalEnv) (tr : Trace) :
    Except BookingError String × Trace :=
  if env.errorMsgElementPresent then
    let errorMessage := env.errorMsgText.map jsTrim
    if truthyOpt errorMessage then
      let msg := errorMessage.getD ""
      if strIncludes msg "Start time must be 30 minutes before currenttime"
          || strIncludes msg "End time must be later than start time" then
        (.error (.invalidBookingTimeException msg), tr)
      else if strIncludes msg "The specified slot is booked by another user" then
        (.error (.slotTakenException msg), tr)
      else
        (.error (.jsError ("Booking failed: " ++ msg)), tr)
    else
      (.error (.jsError "Booking failed with an unknown error (no message)."), tr)
  else if !env.refTableAppears then
    (.error (.timeoutError "table#BookingReferenceNumber tr td"), tr)
  else
    let bookingId : Option String :=
      match env.refCellText with
      | none => none
      | some t => if jsTrim t == "" then none else some (jsTrim t)
    match bookingId with
    | none =>
      (.error (.jsError "No booking reference number found, booking might have failed silently."),
       tr)
    | some id =>
      let screenshotPath := "booking-confirmation-" ++ toString env.timestamp ++ ".png"
      (.ok id, { tr with screenshots := tr.screenshots ++ [screenshotPath] })

/-- The body of the `try` block after the browser launch (source lines
108-332): login, search-form navigation, both calendar dialogs, slot
selection, booking-form filling, then `submissionStage`.  Every element or
frame the source null-checks raises `expectedElementNotFound` with the
source's message; every awaited selector/navigation can instead raise the
driver's `timeoutError`. -/
def browserBody (p : Parsed) (purpose : String) (userCount : Nat)
    (doorAccess aircon : Bool) (env : PortalEnv) (tr : Trace) :
    Except BookingError String × Trace :=
  if !env.gotoLoginOk then (.error (.timeoutError "goto loginpage.aspx"), tr) else
  if !env.studentLoginButtonVisible then (.error (.timeoutError "span StudentLoginButton"), tr) else
  if !env.userNameInputVisible then (.error (.timeoutError "input userNameInput"), tr) else
  if !env.searchFrameFound then (.error (.expectedElementNotFound "Search Frame not found."), tr) else
  if !env.facilTypeSelectFound then (.error (.expectedElementNotFound "Facility type dropdown not found."), tr) else
  let tr := { tr with selectedFacilityType := some p.venue.facil_type_value }
  if !env.facilitySelectFound then (.error (.expectedElementNotFound "Facility dropdown not found."), tr) else
  let tr := { tr with selectedFacility := some p.venue.option_value }
  if !env.startDateTableFound then (.error (.expectedElementNotFound "Start date table not found."), tr) else
  if !env.startDateInputFound then (.error (.expectedElementNotFound "Start date input not found."), tr) else
  if !env.calendarDivVisibleStart then (.error (.timeoutError "div calendarDiv"), tr) else
  if !env.calendarFrameStartFound then (.error (.expectedElementNotFound "Calendar Frame (start) not found."), tr) else
  if !env.monthYearSelectsStartFound then (.error (.expectedElementNotFound "Month/Year selects not found in calendar (start)."), tr) else
  let tr := { tr with selectedMonthStart := some p.month_parsed, selectedYearStart := some p.year }
  if !env.day7VisibleStart then (.error (.timeoutError "td day7"), tr) else
  let tr := { tr with clickedDayStart := some p.day_parsed }
  if !env.endDateInputFound then (.error (.expectedElementNotFound "End date input not found."), tr) else
  if !env.calendarDivVisibleEnd then (.error (.timeoutError "div calendarDiv"), tr) else
  if !env.calendarFrameEndFound then (.error (.expectedElementNotFound "Calendar Frame (end) not found."), tr) else
  if !env.monthYearSelectsEndFound then (.error (.expectedElementNotFound "Month/Year selects not found in calendar (end)."), tr) else
  let tr := { tr with selectedMonthEnd := some p.month_parsed, selectedYearEnd := some p.year }
  if !env.day7VisibleEnd then (.error (.timeoutError "td day7"), tr) else
  let tr := { tr with clickedDayEnd := some p.day_parsed }
  if !env.viewAvailabilityBtnFound then (.error (.expectedElementNotFound "View Availability button not found."), tr) else
  if !env.bookingCalFrameFound then (.error (.expectedElementNotFound "Booking Calendar Frame not found."), tr) else
  let divAvailString := p.year ++ p.month ++ p.day
  if !env.slotDivVisible then
    (.error (.timeoutError ("div.divAvailable[id^=\"" ++ divAvailString ++ "\"]")), tr) else
  let tr := { tr with slotSelectorClicked := some ("div.divAvailable[id^=\"" ++ divAvailString ++ "\"]") }
  if !env.createWindowVisible then (.error (.timeoutError "div createWindow_c"), tr) else
  if !env.iframeBookingElementFound then (.error (.expectedElementNotFound "Booking Frame (iframe) not found."), tr) else
  if !env.bookingFrameAccessible then (.error (.expectedElementNotFound "Booking Frame content not accessible."), tr) else
  if !env.bookingFrameNavOk then (.error (.timeoutError "booking frame navigation"), tr) else
  if !env.usageTypeSelectFound then (.error (.expectedElementNotFound "Usage Type dropdown not found."), tr) else
  let tr := { tr with selectedUsageType := some p.usageTypeString }
  if !env.timeSelectsFound then (.error (.expectedElementNotFound "Time selection dropdowns not found."), tr) else
  let tr := { tr with selectedFromValue := some p.start_time_form_value,
                      selectedToValue := some p.end_time_form_value }
  if !env.attendeesInputFound then (.error (.expectedElementNotFound "ExpectedNoAttendees input not found."), tr) else
  let tr := { tr with typedAttendees := some (toString userCount) }
  if !env.chargeGroupSelectFound then (.error (.expectedElementNotFound "ChargeGroup dropdown not found."), tr) else
  let tr := { tr with selectedChargeGroup := some "1" }
  if !env.purposeTextareaFound then (.error (.expectedElementNotFound "Purpose textarea not found."), tr) else
  let tr := { tr with typedPurpose := some purpose }
  if !env.doorAccessCheckboxFound then (.error (.expectedElementNotFound "Door Access checkbox not found."), tr) else
  let tr := { tr with
    doorAccessClicks :=
      if env.doorAccessChecked != doorAccess then tr.doorAccessClicks + 1 else tr.doorAccessClicks,
    doorAccessFinal :=
      some (if env.doorAccessChecked != doorAccess then !env.doorAccessChecked else env.doorAccessChecked) }
  if !env.airconCheckboxFound then (.error (.expectedElementNotFound "Aircon checkbox not found."), tr) else
  let tr := { tr with
    airconClicks :=
      if env.airconChecked != aircon then tr.airconClicks + 1 else tr.airconClicks,
    airconFinal :=
      some (if env.airconChecked != aircon then !env.airconChecked else env.airconChecked) }
  if !env.createBookingBtnFound then (.error (.expectedElementNotFound "Create Booking button not found."), tr) else
  submissionStage env tr

/-- `FBSInteractor.bookSlot` (source lines 53-343): validation prologue, then
`try { launch browser; ...body... } catch (error) { throw error } finally
{ if (browser) await browser.close(); }`. -/
def bookSlot (startTime endTime purpose : String) (locationID : Int)
    (usageType : String) (userCount : Nat) (doorAccess aircon : Bool)
    (env : PortalEnv) : Except BookingError String × Trace :=
  match parseAndValidate startTime endTime usageType locationID with
  | .error e => (.error e, Trace.empty)
  | .ok p =>
    if env.launchOk then
      let r := browserBody p purpose userCount doorAccess aircon env
        { Trace.empty with browserLaunched := true }
      (r.1, { r.2 with browserClosed := true })
    else
      (.error .launchError, Trace.empty)

/-- A portal run in which everything is in place and the booking succeeds. -/
def allGoodEnv : PortalEnv :=
  ⟨true, true, true, true, true, true, true, true, true, true, true, true,
   true, true, true, true, true, true, true, true, true, true, true, true,
   true, true, true, true, true, true, true, false, true, true, true,
   false, none, true, some "1234ABCD", 1700000000000⟩

/-- Every element, frame and awaited selector of the interaction sequence is
in place, so a run reaches the submission evaluator. -/
def envReady (env : PortalEnv) : Prop :=
  env.launchOk = true ∧
  env.gotoLoginOk = true ∧
  env.studentLoginButtonVisible = true ∧
  env.userNameInputVisible = true ∧
  env.searchFrameFound = true ∧
  env.facilTypeSelectFound = true ∧
  env.facilitySelectFound = true ∧
  env.startDateTableFound = true ∧
  env.startDateInputFound = true ∧
  env.calendarDivVisibleStart = true ∧
  env.calendarFrameStartFound = true ∧
  env.monthYearSelectsStartFound = true ∧
  env.day7VisibleStart = true ∧
  env.endDateInputFound = true ∧
  env.calendarDivVisibleEnd = true ∧
  env.calendarFrameEndFound = true ∧
  env.monthYearSelectsEndFound = true ∧
  env.day7VisibleEnd = true ∧
  env.viewAvailabilityBtnFound = true ∧
  env.bookingCalFrameFound = true ∧
  env.slotDivVisible = true ∧
  env.createWindowVisible = true ∧
  env.iframeBookingElementFound = true ∧
  env.bookingFrameAccessible = true ∧
  env.bookingFrameNavOk = true ∧
  env.usageTypeSelectFound = true ∧
  env.timeSelectsFound = true ∧
  env.attendeesInputFound = true ∧
  env.chargeGroupSelectFound = true ∧
  env.purposeTextareaFound = true ∧
  env.doorAccessCheckboxFound = true ∧
  env.airconCheckboxFound = true ∧
  env.createBookingBtnFound = true

instance (env : PortalEnv) : Decidable (envReady env) := by
  unfold envReady
  infer_instance

/-- The trace accumulated by the form-filling stages once every element is in
place, just before the submission evaluator runs. -/
def fillTrace (p : Parsed) (purpose : String) (userCount : Nat)
    (doorAccess aircon : Bool) (env : PortalEnv) : Trace :=
  { browserLaunched := true
    browserClosed := false
    selectedFacilityType := some p.venue.facil_type_value
    selectedFacility := some p.venue.option_value
    selectedMonthStart := some p.month_parsed
    selectedYearStart := some p.year
    clickedDayStart := some p.day_parsed
    selectedMonthEnd := some p.month_parsed
    selectedYearEnd := some p.year
    clickedDayEnd := some p.day_parsed
    slotSelectorClicked := some ("div.divAvailable[id^=\"" ++ (p.year ++ p.month ++ p.day) ++ "\"]")
    selectedUsageType := some p.usageTypeString
    selectedFromValue := some p.start_time_form_value
    selectedToValue := some p.end_time_form_value
    typedAttendees := some (toString userCount)
    selectedChargeGroup := some "1"
    typedPurpose := some purpose
    doorAccessClicks := if env.doorAccessChecked != doorAccess then 1 else 0
    doorAccessFinal := some (if env.doorAccessChecked != doorAccess then !env.doorAccessChecked else env.doorAccessChecked)
    airconClicks := if env.airconChecked != aircon then 1 else 0
    airconFinal := some (if env.airconChecked != aircon then !env.airconChecked else env.airconChecked)
    screenshots := [] }

/-- The `i`-th dash-separated component of the date part of `startTime`
(empty when absent), as `bookSlot` computes it. -/
def startDatePart (s : String) (i : Nat) : String :=
  ((jsSplit (((jsSplit s ' ').get? 0).getD "") '-').get? i).getD ""

/-- The `Parsed` record produced by validating the docstring's example
request (Gym, Student Activities, 2024-09-07 18:00-19:30). -/
def sampleParsed : Parsed :=
  ⟨"2024-09-07", "18:00:00", "19:30:00", "2024", "09", "07",
   "1800/01/01 18:00:00", "1800/01/01 19:30:00", "9", "7",
   ⟨10, "Gym", "Gym", "b0b1df78-0e74-4b3c-8033-ced5e3e32413",
    "32ecb2ef-0600-44b9-97b0-dbf2a1c2bfab"⟩,
   "d946c992-97e3-4a44-bb11-07ad0440563d"⟩

/-- A run in which the portal answers the submission with the slot-taken
error message. -/
def slotTakenEnv : PortalEnv :=
  { allGoodEnv with
    errorMsgElementPresent := true,
    errorMsgText := some "The specified slot is booked by another user " }

example : jsSplit "2024-09-07 18:00:00" ' ' = ["2024-09-07", "18:00:00"] := by decide
example : jsSplit "2024-09-07" '-' = ["2024", "09", "07"] := by decide
example : stripLeadingZeros "09" = "9" := by decide
example : (parseAndValidate "2024-09-07 18:00:00" "2024-09-07 19:30:00" "Student Activities" 10).isOk = true := by decide

example :
    (bookSlot "2024-09-07 18:00:00" "2024-09-07 19:30:00" "Gym Booking - John Doe"
      10 "Student Activities" 2 true false allGoodEnv).1 = .ok "1234ABCD" := rfl

example :
    (bookSlot "2024-09-07 18:00:00" "2024-09-07 19:30:00" "Gym Booking - John Doe"
      10 "Student Activities" 2 true false allGoodEnv).2.screenshots =
      ["booking-confirmation-1700000000000.png"] := rfl

example :
    parseAndValidate "2024-09-07 18:00:00" "2024-09-07 19:30:00" "Student Activities" 10 =
      .ok sampleParsed := rfl

/-- The submission evaluator only ever appends screenshot paths to the trace
it is given; every other recorded action is left untouched. -/
theorem submissionStage_trace (env : PortalEnv) (tr : Trace) :
    ∃ shots, (submissionStage env tr).2 = { tr with screenshots := tr.screenshots ++ shots } := by
  simp only [submissionStage]
  split
  · split
    · split
      · exact ⟨[], by simp⟩
      · split
        · exact ⟨[], by simp⟩
        · exact ⟨[], by simp⟩
    · exact ⟨[], by simp⟩
  · split
    · exact ⟨[], by simp⟩
    · split
      · exact ⟨[], by simp⟩
      · exact ⟨["booking-confirmation-" ++ toString env.timestamp ++ ".png"], rfl⟩

/-- When validation succeeds and every element is in place, a run of
`bookSlot` is exactly: fill the form (producing `fillTrace`), evaluate the
submission, and close the browser in the guaranteed-cleanup block. -/
theorem bookSlot_ready_eq (startTime endTime purpose usageType : String)
    (locationID : Int) (userCount : Nat) (doorAccess aircon : Bool)
    (env : PortalEnv) (p : Parsed)
    (hp : parseAndValidate startTime endTime usageType locationID = .ok p)
    (henv : envReady env) :
    bookSlot startTime endTime purpose locationID usageType userCount doorAccess aircon env =
      ((submissionStage env (fillTrace p purpose userCount doorAccess aircon env)).1,
       { (submissionStage env (fillTrace p purpose userCount doorAccess aircon env)).2 with
          browserClosed := true }) := by
  rcases env with ⟨f1, f2, f3, f4, f5, f6, f7, f8, f9, f10, f11, f12, f13, f14,
    f15, f16, f17, f18, f19, f20, f21, f22, f23, f24, f25, f26, f27, f28, f29,
    f30, f31, f32, f33, f34, f35, f36, f37, f38, f39, f40⟩
  simp only [envReady] at henv
  obtain ⟨e1, e2, e3, e4, e5, e6, e7, e8, e9, e10, e11, e12, e13, e14, e15, e16,
    e17, e18, e19, e20, e21, e22, e23, e24, e25, e26, e27, e28, e29, e30, e31,
    e32, e33⟩ := henv
  subst e1 e2 e3 e4 e5 e6 e7 e8 e9 e10 e11 e12 e13 e14 e15 e16 e17 e18 e19 e20
    e21 e22 e23 e24 e25 e26 e27 e28 e29 e30 e31 e32 e33
  unfold bookSlot
  rw [hp]
  rfl

/-- A failed three-way truthiness guard means all three checks passed. -/
theorem three_checks {a b c : Bool} (h : ¬((!a || !b || !c) = true)) :
    a = true ∧ b = true ∧ c = true := by
  cases a <;> cases b <;> cases c <;> simp_all

/-- A failed single truthiness guard means the check passed. -/
theorem one_check {a : Bool} (h : ¬((!a) = true)) : a = true := by
  cases a <;> simp_all

/-- What a successful validation tells us: how every field of `Parsed` is
computed from the inputs, and which truthiness checks necessarily passed. -/
theorem parse_ok_fields (s e u : String) (loc : Int) (p : Parsed)
    (h : parseAndValidate s e u loc = .ok p) :
    p.date = ((jsSplit s ' ').get? 0).getD "" ∧
    p.time = ((jsSplit s ' ').get? 1).getD "" ∧
    p.time_end = ((jsSplit e ' ').get? 1).getD "" ∧
    p.year = ((jsSplit p.date '-').get? 0).getD "" ∧
    p.month = ((jsSplit p.date '-').get? 1).getD "" ∧
    p.day = ((jsSplit p.date '-').get? 2).getD "" ∧
    p.start_time_form_value = "1800/01/01" ++ " " ++ p.time ∧
    p.end_time_form_value = "1800/01/01" ++ " " ++ p.time_end ∧
    p.month_parsed = stripLeadingZeros p.month ∧
    p.day_parsed = stripLeadingZeros p.day ∧
    jsIndex VENUES (loc - 1) = some p.venue ∧
    USAGE_TYPES u = some p.usageTypeString ∧
    truthyOpt ((jsSplit s ' ').get? 0) = true ∧
    truthyOpt ((jsSplit s ' ').get? 1) = true ∧
    truthyOpt ((jsSplit e ' ').get? 1) = true ∧
    truthyOpt ((jsSplit p.date '-').get? 0) = true ∧
    truthyOpt ((jsSplit p.date '-').get? 1) = true ∧
    truthyOpt ((jsSplit p.date '-').get? 2) = true ∧
    truthyStr u = true := by
  simp only [parseAndValidate] at h
  split at h
  · exact absurd h (by simp)
  next hc1 =>
    split at h
    · exact absurd h (by simp)
    next hc2 =>
      split at h
      · exact absurd h (by simp)
      next hc3 =>
        split at h
        · exact absurd h (by simp)
        next venue hv =>
          split at h
          · exact absurd h (by simp)
          next uts hu =>
            injection h with h
            subst h
            obtain ⟨t1, t2, t3⟩ := three_checks hc1
            obtain ⟨t4, t5, t6⟩ := three_checks hc2
            exact ⟨rfl, rfl, rfl, rfl, rfl, rfl, rfl, rfl, rfl, rfl, hv, hu,
              t1, t2, t3, t4, t5, t6, one_check hc3⟩

/-- C1: after submission, a present error element with non-empty trimmed text
is classified by substring in order — invalid-booking-time messages first,
then slot-taken, then a generic failure carrying the raw message — a present
element with empty text raises the generic unknown-error failure, and in
every such case the attempt fails. -/
theorem C1_error_classification (startTime endTime purpose usageType : String)
    (locationID : Int) (userCount : Nat) (doorAccess aircon : Bool)
    (env : PortalEnv) (p : Parsed)
    (hp : parseAndValidate startTime endTime usageType locationID = .ok p)
    (henv : envReady env) (hpresent : env.errorMsgElementPresent = true) :
    (∀ raw, env.errorMsgText = some raw → jsTrim raw ≠ "" →
      (bookSlot startTime endTime purpose locationID usageType userCount doorAccess aircon env).1 =
        .error (if strIncludes (jsTrim raw) "Start time must be 30 minutes before currenttime"
                    || strIncludes (jsTrim raw) "End time must be later than start time" then
                  .invalidBookingTimeException (jsTrim raw)
                else if strIncludes (jsTrim raw) "The specified slot is booked by another user" then
                  .slotTakenException (jsTrim raw)
                else
                  .jsError ("Booking failed: " ++ jsTrim raw))) ∧
    ((env.errorMsgText = none ∨ env.errorMsgText.map jsTrim = some "") →
      (bookSlot startTime endTime purpose locationID usageType userCount doorAccess aircon env).1 =
        .error (.jsError "Booking failed with an unknown error (no message).")) ∧
    (∀ ref, (bookSlot startTime endTime purpose locationID usageType userCount doorAccess aircon env).1 ≠
      .ok ref) := by
  rw [bookSlot_ready_eq startTime endTime purpose usageType locationID userCount
    doorAccess aircon env p hp henv]
  refine ⟨?_, ?_, ?_⟩
  · intro raw hraw hne
    simp [submissionStage, hpresent, hraw, truthyOpt, truthyStr, hne]
    split
    · rfl
    · split <;> rfl
  · rintro (hnone | hsome)
    · simp [submissionStage, hpresent, hnone, truthyOpt]
    · simp [submissionStage, hpresent, hsome, truthyOpt, truthyStr]
  · intro ref
    rcases hmt : env.errorMsgText with _ | raw
    · simp [submissionStage, hpresent, hmt, truthyOpt]
    · by_cases hq : jsTrim raw = ""
      · simp [submissionStage, hpresent, hmt, truthyOpt, truthyStr, hq]
      · simp [submissionStage, hpresent, hmt, truthyOpt, truthyStr, hq]
        split
        · simp
        · split <;> simp

/-- C1 witness: with every element present and the portal answering the
submission with the slot-taken message, the attempt fails with
`SlotTakenException` carrying that (trimmed) message. -/
theorem C1_witness :
    (bookSlot "2024-09-07 18:00:00" "2024-09-07 19:30:00" "Gym Booking - John Doe"
      10 "Student Activities" 2 true false slotTakenEnv).1 =
      .error (.slotTakenException "The specified slot is booked by another user") := by
  have h := (C1_error_classification "2024-09-07 18:00:00" "2024-09-07 19:30:00"
    "Gym Booking - John Doe" "Student Activities" 10 2 true false slotTakenEnv
    sampleParsed rfl (by decide) rfl).1
    "The specified slot is booked by another user " rfl (by decide)
  exact h

/-- C2: when the error element is absent, the run reads the second cell of
the reference table; a non-empty (trimmed) cell means success with that
reference returned and a full-page screenshot captured at
`booking-confirmation-<timestamp>.png`; no parseable reference means the
silent-failure error and never success. -/
theorem C2_reference_and_screenshot (startTime endTime purpose usageType : String)
    (locationID : Int) (userCount : Nat) (doorAccess aircon : Bool)
    (env : PortalEnv) (p : Parsed)
    (hp : parseAndValidate startTime endTime usageType locationID = .ok p)
    (henv : envReady env) (habsent : env.errorMsgElementPresent = false)
    (htable : env.refTableAppears = true) :
    (∀ t, env.refCellText = some t → jsTrim t ≠ "" →
      (bookSlot startTime endTime purpose locationID usageType userCount doorAccess aircon env).1 =
        .ok (jsTrim t) ∧
      jsTrim t ≠ "" ∧
      (bookSlot startTime endTime purpose locationID usageType userCount doorAccess aircon env).2.screenshots =
        ["booking-confirmation-" ++ toString env.timestamp ++ ".png"]) ∧
    ((env.refCellText = none ∨ env.refCellText.map jsTrim = some "") →
      (bookSlot startTime endTime purpose locationID usageType userCount doorAccess aircon env).1 =
        .error (.jsError "No booking reference number found, booking might have failed silently.") ∧
      ∀ ref, (bookSlot startTime endTime purpose locationID usageType userCount doorAccess aircon env).1 ≠
        .ok ref) := by
  rw [bookSlot_ready_eq startTime endTime purpose usageType locationID userCount
    doorAccess aircon env p hp henv]
  constructor
  · intro t hcell hne
    refine ⟨?_, hne, ?_⟩
    · simp [submissionStage, habsent, htable, hcell, hne]
    · simp [submissionStage, habsent, htable, hcell, hne, fillTrace]
  · rintro (hnone | hsome)
    · constructor
      · simp [submissionStage, habsent, htable, hnone]
      · intro ref
        simp [submissionStage, habsent, htable, hnone]
    · rcases hcell : env.refCellText with _ | t
      · rw [hcell] at hsome; exact absurd hsome (by simp)
      · rw [hcell] at hsome
        have ht : jsTrim t = "" := by simpa using hsome
        constructor
        · simp [submissionStage, habsent, htable, hcell, ht]
        · intro ref
          simp [submissionStage, habsent, htable, hcell, ht]

/-- C2 witness: in the all-good run the attempt succeeds with the reference
from the results table and records exactly the confirmation screenshot. -/
theorem C2_witness :
    (bookSlot "2024-09-07 18:00:00" "2024-09-07 19:30:00" "Gym Booking - John Doe"
      10 "Student Activities" 2 true false allGoodEnv).1 = .ok "1234ABCD" ∧
    (bookSlot "2024-09-07 18:00:00" "2024-09-07 19:30:00" "Gym Booking - John Doe"
      10 "Student Activities" 2 true false allGoodEnv).2.screenshots =
      ["booking-confirmation-1700000000000.png"] := by
  have h := (C2_reference_and_screenshot "2024-09-07 18:00:00" "2024-09-07 19:30:00"
    "Gym Booking - John Doe" "Student Activities" 10 2 true false allGoodEnv
    sampleParsed rfl (by decide) rfl rfl).1 "1234ABCD" rfl (by decide)
  exact ⟨h.1, h.2.2⟩

/-- C3: whenever a run launched a browser, the guaranteed-cleanup block
closed it — on success, typed failure, or unexpected exception alike — and
the run's result is exactly the try-block's own result: every error raised
inside the attempt is re-raised unchanged to the caller. -/
theorem C3_browser_cleanup_and_rethrow (startTime endTime purpose usageType : String)
    (locationID : Int) (userCount : Nat) (doorAccess aircon : Bool)
    (env : PortalEnv)
    (h : (bookSlot startTime endTime purpose locationID usageType userCount doorAccess aircon env).2.browserLaunched = true) :
    (bookSlot startTime endTime purpose locationID usageType userCount doorAccess aircon env).2.browserClosed = true ∧
    env.launchOk = true ∧
    ∃ p, parseAndValidate startTime endTime usageType locationID = .ok p ∧
      (bookSlot startTime endTime purpose locationID usageType userCount doorAccess aircon env).1 =
        (browserBody p purpose userCount doorAccess aircon env
          { Trace.empty with browserLaunched := true }).1 := by
  rcases hpv : parseAndValidate startTime endTime usageType locationID with err | p
  · exfalso
    unfold bookSlot at h
    rw [hpv] at h
    exact absurd h (by simp [Trace.empty])
  · by_cases hl : env.launchOk = true
    · refine ⟨?_, hl, p, rfl, ?_⟩
      · simp [bookSlot, hpv, hl]
      · simp [bookSlot, hpv, hl, Trace.empty]
    · exfalso
      unfold bookSlot at h
      rw [hpv] at h
      simp [hl, Trace.empty] at h

/-- C3 witness: the all-good run launched a browser; the theorem then yields
that it was closed and that the result is the try-block's own. -/
theorem C3_witness :
    (bookSlot "2024-09-07 18:00:00" "2024-09-07 19:30:00" "Gym Booking - John Doe"
      10 "Student Activities" 2 true false allGoodEnv).2.browserLaunched = true ∧
    ((bookSlot "2024-09-07 18:00:00" "2024-09-07 19:30:00" "Gym Booking - John Doe"
      10 "Student Activities" 2 true false allGoodEnv).2.browserClosed = true ∧
     allGoodEnv.launchOk = true ∧
     ∃ p, parseAndValidate "2024-09-07 18:00:00" "2024-09-07 19:30:00" "Student Activities" 10 = .ok p ∧
       (bookSlot "2024-09-07 18:00:00" "2024-09-07 19:30:00" "Gym Booking - John Doe"
         10 "Student Activities" 2 true false allGoodEnv).1 =
         (browserBody p "Gym Booking - John Doe" 2 true false allGoodEnv
           { Trace.empty with browserLaunched := true }).1) :=
  ⟨rfl, C3_browser_cleanup_and_rethrow "2024-09-07 18:00:00" "2024-09-07 19:30:00"
    "Gym Booking - John Doe" "Student Activities" 10 2 true false allGoodEnv rfl⟩

/-- C4: each checkbox is clicked exactly once when its current state differs
from the requested boolean and zero times when they agree; after filling its
state equals the requested boolean; and a rerun against a form whose
checkboxes already hold the requested values performs no click at all. -/
theorem C4_checkbox_reconciliation (startTime endTime purpose usageType : String)
    (locationID : Int) (userCount : Nat) (doorAccess aircon : Bool)
    (env : PortalEnv) (p : Parsed)
    (hp : parseAndValidate startTime endTime usageType locationID = .ok p)
    (henv : envReady env) :
    (bookSlot startTime endTime purpose locationID usageType userCount doorAccess aircon env).2.doorAccessClicks =
      (if env.doorAccessChecked != doorAccess then 1 else 0) ∧
    (bookSlot startTime endTime purpose locationID usageType userCount doorAccess aircon env).2.airconClicks =
      (if env.airconChecked != aircon then 1 else 0) ∧
    (bookSlot startTime endTime purpose locationID usageType userCount doorAccess aircon env).2.doorAccessFinal =
      some doorAccess ∧
    (bookSlot startTime endTime purpose locationID usageType userCount doorAccess aircon env).2.airconFinal =
      some aircon ∧
    (bookSlot startTime endTime purpose locationID usageType userCount doorAccess aircon
      { env with doorAccessChecked := doorAccess, airconChecked := aircon }).2.doorAccessClicks = 0 ∧
    (bookSlot startTime endTime purpose locationID usageType userCount doorAccess aircon
      { env with doorAccessChecked := doorAccess, airconChecked := aircon }).2.airconClicks = 0 := by
  have henv2 : envReady { env with doorAccessChecked := doorAccess, airconChecked := aircon } := by
    simpa only [envReady] using henv
  rw [bookSlot_ready_eq startTime endTime purpose usageType locationID userCount
    doorAccess aircon env p hp henv]
  rw [bookSlot_ready_eq startTime endTime purpose usageType locationID userCount
    doorAccess aircon _ p hp henv2]
  obtain ⟨shots, hs⟩ :=
    submissionStage_trace env (fillTrace p purpose userCount doorAccess aircon env)
  obtain ⟨shots2, hs2⟩ :=
    submissionStage_trace { env with doorAccessChecked := doorAccess, airconChecked := aircon }
      (fillTrace p purpose userCount doorAccess aircon
        { env with doorAccessChecked := doorAccess, airconChecked := aircon })
  refine ⟨?_, ?_, ?_, ?_, ?_, ?_⟩
  · simp only [hs]
    simp [fillTrace]
  · simp only [hs]
    simp [fillTrace]
  · simp only [hs]
    cases hdc : env.doorAccessChecked <;> cases doorAccess <;> simp [fillTrace, hdc]
  · simp only [hs]
    cases hac : env.airconChecked <;> cases aircon <;> simp [fillTrace, hac]
  · simp only [hs2]
    simp [fillTrace]
  · simp only [hs2]
    simp [fillTrace]

/-- C4 witness: in the all-good run (door checkbox initially unchecked,
aircon initially checked; door requested on, aircon requested off) each
checkbox is clicked once, ends in the requested state, and a rerun against a
form already in the requested state clicks neither. -/
theorem C4_witness :
    (bookSlot "2024-09-07 18:00:00" "2024-09-07 19:30:00" "Gym Booking - John Doe"
      10 "Student Activities" 2 true false allGoodEnv).2.doorAccessClicks = 1 ∧
    (bookSlot "2024-09-07 18:00:00" "2024-09-07 19:30:00" "Gym Booking - John Doe"
      10 "Student Activities" 2 true false allGoodEnv).2.airconClicks = 1 ∧
    (bookSlot "2024-09-07 18:00:00" "2024-09-07 19:30:00" "Gym Booking - John Doe"
      10 "Student Activities" 2 true false allGoodEnv).2.doorAccessFinal = some true ∧
    (bookSlot "2024-09-07 18:00:00" "2024-09-07 19:30:00" "Gym Booking - John Doe"
      10 "Student Activities" 2 true false allGoodEnv).2.airconFinal = some false ∧
    (bookSlot "2024-09-07 18:00:00" "2024-09-07 19:30:00" "Gym Booking - John Doe"
      10 "Student Activities" 2 true false
      { allGoodEnv with doorAccessChecked := true, airconChecked := false }).2.doorAccessClicks = 0 ∧
    (bookSlot "2024-09-07 18:00:00" "2024-09-07 19:30:00" "Gym Booking - John Doe"
      10 "Student Activities" 2 true false
      { allGoodEnv with doorAccessChecked := true, airconChecked := false }).2.airconClicks = 0 := by
  have h := C4_checkbox_reconciliation "2024-09-07 18:00:00" "2024-09-07 19:30:00"
    "Gym Booking - John Doe" "Student Activities" 10 2 true false allGoodEnv
    sampleParsed rfl (by decide)
  exact h

/-- C5: the date of `endTime` never drives the portal — two runs whose
`endTime` agree on the time-of-day (the part after the space) are identical
in result and trace; both calendar dialogs and the availability-slot prefix
are driven solely by `startTime`'s date; of `endTime` only the time-of-day
appears, in the end-time dropdown value. -/
theorem C5_endTime_date_unused (startTime e1 e2 purpose usageType : String)
    (locationID : Int) (userCount : Nat) (doorAccess aircon : Bool)
    (env : PortalEnv) :
    ((jsSplit e1 ' ').get? 1 = (jsSplit e2 ' ').get? 1 →
      bookSlot startTime e1 purpose locationID usageType userCount doorAccess aircon env =
        bookSlot startTime e2 purpose locationID usageType userCount doorAccess aircon env) ∧
    (∀ p, parseAndValidate startTime e1 usageType locationID = .ok p → envReady env →
      (bookSlot startTime e1 purpose locationID usageType userCount doorAccess aircon env).2.selectedYearStart =
        some (startDatePart startTime 0) ∧
      (bookSlot startTime e1 purpose locationID usageType userCount doorAccess aircon env).2.selectedMonthStart =
        some (stripLeadingZeros (startDatePart startTime 1)) ∧
      (bookSlot startTime e1 purpose locationID usageType userCount doorAccess aircon env).2.clickedDayStart =
        some (stripLeadingZeros (startDatePart startTime 2)) ∧
      (bookSlot startTime e1 purpose locationID usageType userCount doorAccess aircon env).2.selectedYearEnd =
        some (startDatePart startTime 0) ∧
      (bookSlot startTime e1 purpose locationID usageType userCount doorAccess aircon env).2.selectedMonthEnd =
        some (stripLeadingZeros (startDatePart startTime 1)) ∧
      (bookSlot startTime e1 purpose locationID usageType userCount doorAccess aircon env).2.clickedDayEnd =
        some (stripLeadingZeros (startDatePart startTime 2)) ∧
      (bookSlot startTime e1 purpose locationID usageType userCount doorAccess aircon env).2.slotSelectorClicked =
        some ("div.divAvailable[id^=\"" ++
          (startDatePart startTime 0 ++ startDatePart startTime 1 ++ startDatePart startTime 2) ++ "\"]") ∧
      (bookSlot startTime e1 purpose locationID usageType userCount doorAccess aircon env).2.selectedToValue =
        some ("1800/01/01" ++ " " ++ ((jsSplit e1 ' ').get? 1).getD "")) := by
  constructor
  · intro h
    have hpe : parseAndValidate startTime e1 usageType locationID =
        parseAndValidate startTime e2 usageType locationID := by
      simp only [parseAndValidate, h]
    unfold bookSlot
    rw [hpe]
  · intro p hp henv
    obtain ⟨hdate, htime, htimeend, hyear, hmonth, hday, hstfv, hetfv, hmp, hdp,
      hv, hu, c1, c2, c3, c4, c5, c6, c7⟩ := parse_ok_fields _ _ _ _ _ hp
    rw [bookSlot_ready_eq startTime e1 purpose usageType locationID userCount
      doorAccess aircon env p hp henv]
    obtain ⟨shots, hs⟩ :=
      submissionStage_trace env (fillTrace p purpose userCount doorAccess aircon env)
    refine ⟨?_, ?_, ?_, ?_, ?_, ?_, ?_, ?_⟩ <;>
      (simp only [hs]; simp [fillTrace, startDatePart, hyear, hmonth, hday, hdate,
        hetfv, htimeend, hmp, hdp])

/-- C5 witness: changing `endTime`'s date from 2024-09-07 to 2099-12-31 while
keeping the time-of-day leaves the entire run unchanged, and the end-date
calendar was driven by `startTime`'s date. -/
theorem C5_witness :
    bookSlot "2024-09-07 18:00:00" "2024-09-07 19:30:00" "Gym Booking - John Doe"
      10 "Student Activities" 2 true false allGoodEnv =
    bookSlot "2024-09-07 18:00:00" "2099-12-31 19:30:00" "Gym Booking - John Doe"
      10 "Student Activities" 2 true false allGoodEnv ∧
    (bookSlot "2024-09-07 18:00:00" "2024-09-07 19:30:00" "Gym Booking - John Doe"
      10 "Student Activities" 2 true false allGoodEnv).2.selectedYearEnd = some "2024" ∧
    (bookSlot "2024-09-07 18:00:00" "2024-09-07 19:30:00" "Gym Booking - John Doe"
      10 "Student Activities" 2 true false allGoodEnv).2.selectedMonthEnd = some "9" ∧
    (bookSlot "2024-09-07 18:00:00" "2024-09-07 19:30:00" "Gym Booking - John Doe"
      10 "Student Activities" 2 true false allGoodEnv).2.clickedDayEnd = some "7" := by
  have h := C5_endTime_date_unused "2024-09-07 18:00:00" "2024-09-07 19:30:00"
    "2099-12-31 19:30:00" "Gym Booking - John Doe" "Student Activities"
    10 2 true false allGoodEnv
  have h1 := h.1 (by decide)
  have h2 := h.2 sampleParsed rfl (by decide)
  exact ⟨h1, h2.2.2.2.1, h2.2.2.2.2.1, h2.2.2.2.2.2.1⟩

/-- C6: the start-time and end-time dropdown values are exactly the sentinel
date `1800/01/01`, a space, and the request's time-of-day, whatever the real
booking date is. -/
theorem C6_sentinel_time_values (startTime endTime purpose usageType : String)
    (locationID : Int) (userCount : Nat) (doorAccess aircon : Bool)
    (env : PortalEnv) (p : Parsed)
    (hp : parseAndValidate startTime endTime usageType locationID = .ok p)
    (henv : envReady env) :
    (bookSlot startTime endTime purpose locationID usageType userCount doorAccess aircon env).2.selectedFromValue =
      some ("1800/01/01" ++ " " ++ ((jsSplit startTime ' ').get? 1).getD "") ∧
    (bookSlot startTime endTime purpose locationID usageType userCount doorAccess aircon env).2.selectedToValue =
      some ("1800/01/01" ++ " " ++ ((jsSplit endTime ' ').get? 1).getD "") := by
  obtain ⟨hdate, htime, htimeend, hyear, hmonth, hday, hstfv, hetfv, hmp, hdp,
    hv, hu, c1, c2, c3, c4, c5, c6, c7⟩ := parse_ok_fields _ _ _ _ _ hp
  rw [bookSlot_ready_eq startTime endTime purpose usageType locationID userCount
    doorAccess aircon env p hp henv]
  obtain ⟨shots, hs⟩ :=
    submissionStage_trace env (fillTrace p purpose userCount doorAccess aircon env)
  constructor <;> (simp only [hs]; simp [fillTrace, hstfv, hetfv, htime, htimeend])

/-- C6 witness: for the example request the dropdown values are the sentinel
date with the requested times of day. -/
theorem C6_witness :
    (bookSlot "2024-09-07 18:00:00" "2024-09-07 19:30:00" "Gym Booking - John Doe"
      10 "Student Activities" 2 true false allGoodEnv).2.selectedFromValue =
      some "1800/01/01 18:00:00" ∧
    (bookSlot "2024-09-07 18:00:00" "2024-09-07 19:30:00" "Gym Booking - John Doe"
      10 "Student Activities" 2 true false allGoodEnv).2.selectedToValue =
      some "1800/01/01 19:30:00" :=
  C6_sentinel_time_values "2024-09-07 18:00:00" "2024-09-07 19:30:00"
    "Gym Booking - John Doe" "Student Activities" 10 2 true false allGoodEnv
    sampleParsed rfl (by decide)

/-- Stripping leading zeros then re-padding to two characters is the
identity on two-character strings other than `"00"`. -/
theorem strip_pad_two (s : String) (hlen : s.length = 2) (hne : s ≠ "00") :
    padStart2 (stripLeadingZeros s) = s := by
  have h2 : s.data.length = 2 := hlen
  obtain ⟨a, b, hab⟩ := List.length_eq_two.mp h2
  rcases s with ⟨l⟩
  simp only at hab
  subst hab
  by_cases ha : a = '0'
  · subst ha
    by_cases hb : b = '0'
    · subst hb
      exact absurd (by decide : (⟨['0', '0']⟩ : String) = "00") hne
    · have hb' : (b == '0') = false := by simp [hb]
      simp [stripLeadingZeros, padStart2, List.dropWhile, hb', String.length,
        List.replicate]
  · have ha' : (a == '0') = false := by simp [ha]
    simp [stripLeadingZeros, padStart2, List.dropWhile, ha', String.length]

/-- C7: for a valid zero-padded `YYYY-MM-DD`, the calendar receives month
and day with leading zeros stripped and the year unchanged, and the
decomposition is lossless: re-padding the stripped month and day to two
digits reconstructs the original components. -/
theorem C7_date_decomposition (startTime endTime purpose usageType : String)
    (locationID : Int) (userCount : Nat) (doorAccess aircon : Bool)
    (env : PortalEnv) (p : Parsed)
    (hp : parseAndValidate startTime endTime usageType locationID = .ok p)
    (henv : envReady env)
    (hylen : p.year.length = 4)
    (hmlen : p.month.length = 2) (hmdig : p.month.data.all Char.isDigit = true)
    (hmlo : 1 ≤ digitsValue p.month) (hmhi : digitsValue p.month ≤ 12)
    (hdlen : p.day.length = 2) (hddig : p.day.data.all Char.isDigit = true)
    (hdlo : 1 ≤ digitsValue p.day) (hdhi : digitsValue p.day ≤ 31) :
    (bookSlot startTime endTime purpose locationID usageType userCount doorAccess aircon env).2.selectedMonthStart =
      some (stripLeadingZeros p.month) ∧
    (bookSlot startTime endTime purpose locationID usageType userCount doorAccess aircon env).2.clickedDayStart =
      some (stripLeadingZeros p.day) ∧
    (bookSlot startTime endTime purpose locationID usageType userCount doorAccess aircon env).2.selectedYearStart =
      some p.year ∧
    (bookSlot startTime endTime purpose locationID usageType userCount doorAccess aircon env).2.selectedYearEnd =
      some p.year ∧
    p.year.length = 4 ∧
    padStart2 (stripLeadingZeros p.month) = p.month ∧
    padStart2 (stripLeadingZeros p.day) = p.day := by
  obtain ⟨hdate, htime, htimeend, hyear, hmonth, hday, hstfv, hetfv, hmp, hdp,
    hv, hu, c1, c2, c3, c4, c5, c6, c7⟩ := parse_ok_fields _ _ _ _ _ hp
  have hm00 : p.month ≠ "00" := by
    intro hEq
    rw [hEq] at hmlo
    exact absurd hmlo (by decide)
  have hd00 : p.day ≠ "00" := by
    intro hEq
    rw [hEq] at hdlo
    exact absurd hdlo (by decide)
  rw [bookSlot_ready_eq startTime endTime purpose usageType locationID userCount
    doorAccess aircon env p hp henv]
  obtain ⟨shots, hs⟩ :=
    submissionStage_trace env (fillTrace p purpose userCount doorAccess aircon env)
  refine ⟨?_, ?_, ?_, ?_, hylen, strip_pad_two p.month hmlen hm00,
    strip_pad_two p.day hdlen hd00⟩ <;>
    (simp only [hs]; simp [fillTrace, hmp, hdp])

/-- C7 witness: for the example request (month "09", day "07") the calendar
receives "9" and "7", the year "2024" unchanged, and re-padding restores the
original components. -/
theorem C7_witness :
    (bookSlot "2024-09-07 18:00:00" "2024-09-07 19:30:00" "Gym Booking - John Doe"
      10 "Student Activities" 2 true false allGoodEnv).2.selectedMonthStart = some "9" ∧
    (bookSlot "2024-09-07 18:00:00" "2024-09-07 19:30:00" "Gym Booking - John Doe"
      10 "Student Activities" 2 true false allGoodEnv).2.clickedDayStart = some "7" ∧
    (bookSlot "2024-09-07 18:00:00" "2024-09-07 19:30:00" "Gym Booking - John Doe"
      10 "Student Activities" 2 true false allGoodEnv).2.selectedYearStart = some "2024" ∧
    (bookSlot "2024-09-07 18:00:00" "2024-09-07 19:30:00" "Gym Booking - John Doe"
      10 "Student Activities" 2 true false allGoodEnv).2.selectedYearEnd = some "2024" ∧
    ("2024" : String).length = 4 ∧
    padStart2 (stripLeadingZeros "09") = "09" ∧
    padStart2 (stripLeadingZeros "07") = "07" :=
  C7_date_decomposition "2024-09-07 18:00:00" "2024-09-07 19:30:00"
    "Gym Booking - John Doe" "Student Activities" 10 2 true false allGoodEnv
    sampleParsed rfl (by decide) (by decide) (by decide) (by decide) (by decide)
    (by decide) (by decide) (by decide) (by decide) (by decide)

/-- C8: the availability slot is located (and clicked) through a
`div.divAvailable` selector whose id prefix is the concatenation of the
zero-padded year, month and day of the requested date — the raw split
components, not the leading-zero-stripped ones — eight characters for a
valid date. -/
theorem C8_slot_locator (startTime endTime purpose usageType : String)
    (locationID : Int) (userCount : Nat) (doorAccess aircon : Bool)
    (env : PortalEnv) (p : Parsed)
    (hp : parseAndValidate startTime endTime usageType locationID = .ok p)
    (henv : envReady env) :
    (bookSlot startTime endTime purpose locationID usageType userCount doorAccess aircon env).2.slotSelectorClicked =
      some ("div.divAvailable[id^=\"" ++
        (startDatePart startTime 0 ++ startDatePart startTime 1 ++ startDatePart startTime 2) ++ "\"]") ∧
    p.year = startDatePart startTime 0 ∧
    p.month = startDatePart startTime 1 ∧
    p.day = startDatePart startTime 2 ∧
    ((startDatePart startTime 0).length = 4 → (startDatePart startTime 1).length = 2 →
      (startDatePart startTime 2).length = 2 →
      (startDatePart startTime 0 ++ startDatePart startTime 1 ++ startDatePart startTime 2).length = 8) := by
  obtain ⟨hdate, htime, htimeend, hyear, hmonth, hday, hstfv, hetfv, hmp, hdp,
    hv, hu, c1, c2, c3, c4, c5, c6, c7⟩ := parse_ok_fields _ _ _ _ _ hp
  have hy : p.year = startDatePart startTime 0 := by rw [hyear, hdate, startDatePart]
  have hm : p.month = startDatePart startTime 1 := by rw [hmonth, hdate, startDatePart]
  have hd : p.day = startDatePart startTime 2 := by rw [hday, hdate, startDatePart]
  rw [bookSlot_ready_eq startTime endTime purpose usageType locationID userCount
    doorAccess aircon env p hp henv]
  obtain ⟨shots, hs⟩ :=
    submissionStage_trace env (fillTrace p purpose userCount doorAccess aircon env)
  refine ⟨?_, hy, hm, hd, ?_⟩
  · simp only [hs]
    simp [fillTrace, hy, hm, hd]
  · intro l4 l2a l2b
    simp [String.length_append, l4, l2a, l2b]

/-- C8 witness: for the example request the clicked selector carries the
eight-character zero-padded prefix `20240907`. -/
theorem C8_witness :
    (bookSlot "2024-09-07 18:00:00" "2024-09-07 19:30:00" "Gym Booking - John Doe"
      10 "Student Activities" 2 true false allGoodEnv).2.slotSelectorClicked =
      some "div.divAvailable[id^=\"20240907\"]" ∧
    ("20240907" : String).length = 8 := by
  have h := C8_slot_locator "2024-09-07 18:00:00" "2024-09-07 19:30:00"
    "Gym Booking - John Doe" "Student Activities" 10 2 true false allGoodEnv
    sampleParsed rfl (by decide)
  exact ⟨h.1, h.2.2.2.2 (by decide) (by decide) (by decide)⟩

/-- C9: the venue table has eleven entries whose ids are 1-based and
contiguous; for every venueId in 1..11 the `VENUES[venueId - 1]` lookup
returns the descriptor with that id, and for every integer outside 1..11 the
lookup is `undefined` and `bookSlot` (on otherwise well-formed inputs) fails
with the venue-not-found error before launching a browser. -/
theorem C9_venues_table :
    VENUES.length = 11 ∧
    (∀ i, i < VENUES.length → (VENUES.get? i).map Venue.id = some ((i : Int) + 1)) ∧
    (∀ v : Int, 1 ≤ v → v ≤ 11 → (jsIndex VENUES (v - 1)).map Venue.id = some v) ∧
    (∀ v : Int, v < 1 ∨ 11 < v → jsIndex VENUES (v - 1) = none) ∧
    (∀ v : Int, v < 1 ∨ 11 < v →
      ∀ s e purpose u : String, ∀ n : Nat, ∀ d a : Bool, ∀ env : PortalEnv,
        truthyOpt ((jsSplit s ' ').get? 0) = true →
        truthyOpt ((jsSplit s ' ').get? 1) = true →
        truthyOpt ((jsSplit e ' ').get? 1) = true →
        truthyOpt ((jsSplit (((jsSplit s ' ').get? 0).getD "") '-').get? 0) = true →
        truthyOpt ((jsSplit (((jsSplit s ' ').get? 0).getD "") '-').get? 1) = true →
        truthyOpt ((jsSplit (((jsSplit s ' ').get? 0).getD "") '-').get? 2) = true →
        truthyStr u = true →
        (bookSlot s e purpose v u n d a env).1 =
          .error (.jsError "Venue not found for provided locationID.") ∧
        (bookSlot s e purpose v u n d a env).2.browserLaunched = false) := by
  have hin : ∀ m : Nat, m < 11 → (VENUES.get? m).map Venue.id = some ((m : Int) + 1) := by
    decide
  have hout : ∀ v : Int, v < 1 ∨ 11 < v → jsIndex VENUES (v - 1) = none := by
    intro v hv
    rcases hv with hv | hv
    · rw [jsIndex, if_pos (by omega)]
    · rw [jsIndex, if_neg (by omega)]
      have hlen : VENUES.length = 11 := rfl
      apply List.get?_eq_none.mpr
      rw [hlen]
      omega
  refine ⟨rfl, ?_, ?_, hout, ?_⟩
  · intro i hi
    exact hin i hi
  · intro v h1 h11
    have hlt : (v - 1).toNat < 11 := by omega
    have hm := hin (v - 1).toNat hlt
    rw [jsIndex, if_neg (by omega)]
    rw [hm]
    congr 1
    omega
  · intro v hv s e purpose u n d a env t1 t2 t3 t4 t5 t6 tu
    have hnone := hout v hv
    have hparse : parseAndValidate s e u v =
        .error (.jsError "Venue not found for provided locationID.") := by
      simp only [List.get?_eq_getElem?] at t1 t2 t3 t4 t5 t6
      simp [parseAndValidate, t1, t2, t3, t4, t5, t6, tu, hnone]
    constructor
    · simp [bookSlot, hparse]
    · simp [bookSlot, hparse, Trace.empty]

/-- C9 witness: venue 7 resolves to the descriptor with id 7, while ids 12
and 0 resolve to nothing and make `bookSlot` fail with the venue-not-found
error before any browser launch. -/
theorem C9_witness :
    (jsIndex VENUES ((7 : Int) - 1)).map Venue.id = some 7 ∧
    jsIndex VENUES ((12 : Int) - 1) = none ∧
    (bookSlot "2024-09-07 18:00:00" "2024-09-07 19:30:00" "Gym Booking - John Doe"
      12 "Student Activities" 2 true false allGoodEnv).1 =
      .error (.jsError "Venue not found for provided locationID.") ∧
    (bookSlot "2024-09-07 18:00:00" "2024-09-07 19:30:00" "Gym Booking - John Doe"
      0 "Student Activities" 2 true false allGoodEnv).2.browserLaunched = false := by
  have h := C9_venues_table
  refine ⟨h.2.2.1 7 (by decide) (by decide), h.2.2.2.1 12 (Or.inr (by decide)), ?_, ?_⟩
  · exact (h.2.2.2.2 12 (Or.inr (by decide)) "2024-09-07 18:00:00" "2024-09-07 19:30:00"
      "Gym Booking - John Doe" "Student Activities" 2 true false allGoodEnv
      (by decide) (by decide) (by decide) (by decide) (by decide) (by decide) (by decide)).1
  · exact (h.2.2.2.2 0 (Or.inl (by decide)) "2024-09-07 18:00:00" "2024-09-07 19:30:00"
      "Gym Booking - John Doe" "Student Activities" 2 true false allGoodEnv
      (by decide) (by decide) (by decide) (by decide) (by decide) (by decide) (by decide)).2

/-- C10 counterexample: with `startTime` whose date part is
`2024-01-02-9` the date does NOT split into three dash-separated parts
(it has four), yet validation passes — the browser is launched, the run can
even succeed, and a screenshot is created — refuting the claim that such
inputs fail before any browser resource is acquired. -/
theorem C10_counterexample :
    (jsSplit (((jsSplit "2024-01-02-9 10:00:00" ' ').get? 0).getD "") '-').length ≠ 3 ∧
    (bookSlot "2024-01-02-9 10:00:00" "2024-01-02 11:00:00" "study session"
      1 "Academic" 2 true false allGoodEnv).2.browserLaunched = true ∧
    (bookSlot "2024-01-02-9 10:00:00" "2024-01-02 11:00:00" "study session"
      1 "Academic" 2 true false allGoodEnv).1 = .ok "1234ABCD" ∧
    (bookSlot "2024-01-02-9 10:00:00" "2024-01-02 11:00:00" "study session"
      1 "Academic" 2 true false allGoodEnv).2.screenshots =
      ["booking-confirmation-1700000000000.png"] :=
  ⟨by decide, by decide, rfl, rfl⟩

/-- C10 (amended): validation failures — a missing space-separated
time-of-day in `startTime`/`endTime`, a missing or empty component among the
first three dash-separated parts of the date, an empty or unknown
`usageType`, or no venue at `venueId` — all make `bookSlot` raise an error
before a browser is launched, so no browser session is opened and no
screenshot is created. -/
theorem C10_validation_before_launch (s e purpose u : String) (loc : Int)
    (n : Nat) (d a : Bool) (env : PortalEnv)
    (h : truthyOpt ((jsSplit s ' ').get? 0) = false ∨
         truthyOpt ((jsSplit s ' ').get? 1) = false ∨
         truthyOpt ((jsSplit e ' ').get? 1) = false ∨
         truthyOpt ((jsSplit (((jsSplit s ' ').get? 0).getD "") '-').get? 0) = false ∨
         truthyOpt ((jsSplit (((jsSplit s ' ').get? 0).getD "") '-').get? 1) = false ∨
         truthyOpt ((jsSplit (((jsSplit s ' ').get? 0).getD "") '-').get? 2) = false ∨
         u = "" ∨ USAGE_TYPES u = none ∨ jsIndex VENUES (loc - 1) = none) :
    (∃ err, (bookSlot s e purpose loc u n d a env).1 = .error err) ∧
    (bookSlot s e purpose loc u n d a env).2.browserLaunched = false ∧
    (bookSlot s e purpose loc u n d a env).2.screenshots = [] := by
  rcases hpv : parseAndValidate s e u loc with err | p
  · refine ⟨⟨err, ?_⟩, ?_, ?_⟩ <;> simp [bookSlot, hpv, Trace.empty]
  · exfalso
    obtain ⟨hdate, htime, htimeend, hyear, hmonth, hday, hstfv, hetfv, hmp, hdp,
      hv, hu, c1, c2, c3, c4, c5, c6, c7⟩ := parse_ok_fields _ _ _ _ _ hpv
    rw [hdate] at c4 c5 c6
    rcases h with h | h | h | h | h | h | h | h | h
    · rw [h] at c1; exact absurd c1 (by decide)
    · rw [h] at c2; exact absurd c2 (by decide)
    · rw [h] at c3; exact absurd c3 (by decide)
    · rw [h] at c4; exact absurd c4 (by decide)
    · rw [h] at c5; exact absurd c5 (by decide)
    · rw [h] at c6; exact absurd c6 (by decide)
    · rw [h] at c7; exact absurd c7 (by decide)
    · rw [h] at hu; exact Option.noConfusion hu
    · rw [h] at hv; exact Option.noConfusion hv

/-- C10 witness: an unknown usage type makes the run fail with no browser
launched and no screenshot. -/
theorem C10_witness :
    (∃ err, (bookSlot "2024-09-07 18:00:00" "2024-09-07 19:30:00" "Gym Booking - John Doe"
      10 "Running" 2 true false allGoodEnv).1 = .error err) ∧
    (bookSlot "2024-09-07 18:00:00" "2024-09-07 19:30:00" "Gym Booking - John Doe"
      10 "Running" 2 true false allGoodEnv).2.browserLaunched = false ∧
    (bookSlot "2024-09-07 18:00:00" "2024-09-07 19:30:00" "Gym Booking - John Doe"
      10 "Running" 2 true false allGoodEnv).2.screenshots = [] :=
  C10_validation_before_launch "2024-09-07 18:00:00" "2024-09-07 19:30:00"
    "Gym Booking - John Doe" "Running" 10 2 true false allGoodEnv
    (Or.inr (Or.inr (Or.inr (Or.inr (Or.inr (Or.inr (Or.inr (Or.inl (by decide)))))))))

end FBS
